import Mathlib

/-!
Verification development for the atlas-overlap engine of the
`ich_central_fever` repository (`src/figures/atlas_overlap/compute_atlas_overlap.py`).

The Python code loads two NIfTI volumes, casts both to `uint8`, resolves a
region catalog from one of three atlas variants, and for each catalog entry
counts region voxels and lesion-within-region voxels, converting counts to
volumes via the product of the voxel spacing components.

Modelling choices (shallow embedding):
* A 3D numpy array is a `Grid`: a shape triple plus a data function on
  indices.  Stored values are natural numbers (the volumes hold small
  non-negative integers); the `astype(np.uint8)` cast is `% 256`.
* numpy elementwise multiplication with broadcasting is `gridMul`; shapes
  that numpy rejects yield `none`, modelling the raised `ValueError`.
* File loading is external I/O: the two CSV catalog sources are passed as
  already-parsed row lists, and the voxel spacing (`header.get_zooms()`)
  as a list of rationals.  Floating point is modelled by `ℚ`.
* The generic `raise Exception("Something went wrong!")` on an unknown
  atlas type is the error `PyError.exceptionSomethingWentWrong`.
-/

/-- A dense 3D array: a shape triple and the value stored at each index.
Only indices below the shape are meaningful. -/
structure Grid where
  shape : Nat × Nat × Nat
  data : Nat → Nat → Nat → Nat

/-- The index set of a shape: all in-range (i, j, k) triples. -/
def cellIdx (s : Nat × Nat × Nat) : Finset (Nat × Nat × Nat) :=
  Finset.range s.1 ×ˢ Finset.range s.2.1 ×ˢ Finset.range s.2.2

/-- `np.count_nonzero` over a grid. -/
def countNonzero (g : Grid) : Nat :=
  ((cellIdx g.shape).filter fun c => g.data c.1 c.2.1 c.2.2 ≠ 0).card

/-- numpy broadcast of one dimension pair: equal dims stay, a dim of 1
stretches, anything else is incompatible. -/
def bcDim (a b : Nat) : Option Nat :=
  if a = b then some a else if a = 1 then some b else if b = 1 then some a else none

/-- Index into a possibly-stretched dimension: a dim of 1 always reads 0. -/
def bIdx (dim i : Nat) : Nat :=
  if dim = 1 then 0 else i

/-- numpy elementwise product with broadcasting; `none` models the
`ValueError` numpy raises on incompatible shapes. -/
def gridMul (g h : Grid) : Option Grid :=
  match bcDim g.shape.1 h.shape.1, bcDim g.shape.2.1 h.shape.2.1,
        bcDim g.shape.2.2 h.shape.2.2 with
  | some a, some b, some c =>
      some ⟨(a, b, c), fun i j k =>
        g.data (bIdx g.shape.1 i) (bIdx g.shape.2.1 j) (bIdx g.shape.2.2 k) *
        h.data (bIdx h.shape.1 i) (bIdx h.shape.2.1 j) (bIdx h.shape.2.2 k)⟩
  | _, _, _ => none

/-- `current_atlas_mask = np.zeros_like(data); current_atlas_mask[data == region_id] = 1`. -/
def regionMask (a : Grid) (region_id : Nat) : Grid :=
  ⟨a.shape, fun i j k => if a.data i j k = region_id then 1 else 0⟩

/-- `astype(np.uint8)` applied to a loaded volume of non-negative integers. -/
def convertGrid (g : Grid) : Grid :=
  ⟨g.shape, fun i j k => g.data i j k % 256⟩

/-- One output row of the results table, in source column order:
`atlas_label`, `n_label_voxels`, `label_volume [mm³]`, `n_lesion_voxels`,
`lesion_volume [mm³]`, `lesion_volume [percent]`. -/
structure RegionStat where
  atlas_label : String
  n_label_voxels : Nat
  label_volume : ℚ
  n_lesion_voxels : Nat
  lesion_volume : ℚ
  lesion_percent : ℚ
deriving DecidableEq

/-- Errors the Python function can raise: the generic
`Exception("Something went wrong!")` for an unknown atlas type, and the
numpy `ValueError` for broadcast-incompatible shapes. -/
inductive PyError where
  | exceptionSomethingWentWrong
  | valueErrorBroadcast
deriving DecidableEq

/-- One iteration of the per-region loop (source lines 156-184): build the
region indicator, intersect with the lesion grid, count, convert to
volumes, normalise. -/
def regionRecord (lesionD atlasD : Grid) (voxvol : ℚ) (e : Nat × String) :
    Except PyError RegionStat :=
  let mask := regionMask atlasD e.1
  match gridMul lesionD mask with
  | none => .error .valueErrorBroadcast
  | some inter =>
    let lesion_voxel_count := countNonzero inter
    let lesion_volume : ℚ := lesion_voxel_count * voxvol
    let region_voxel_count := countNonzero mask
    let region_volume : ℚ := region_voxel_count * voxvol
    let normalized : ℚ := if region_volume > 0 then lesion_volume / region_volume else 0
    .ok ⟨e.2, region_voxel_count, region_volume, lesion_voxel_count,
         lesion_volume, 100 * normalized⟩

/-- The per-region loop over the catalog, accumulating the results list;
an exception aborts the loop with no rows emitted. -/
def compute_core (lesionD atlasD : Grid) (voxvol : ℚ) :
    List (Nat × String) → Except PyError (List RegionStat)
  | [] => .ok []
  | e :: rest =>
    match regionRecord lesionD atlasD voxvol e with
    | .error err => .error err
    | .ok r =>
      match compute_core lesionD atlasD voxvol rest with
      | .error err => .error err
      | .ok rs => .ok (r :: rs)

/-- The hand-authored brainstem name table (`atlas_labels_names`). -/
def brainstemName : Nat → String
  | 0 => "Not_in_Atlas"
  | 1 => "CSTL_Atlas"
  | 2 => "CSTR_Atlas"
  | 3 => "FPTL_Atlas"
  | 4 => "FPTR_Atlas"
  | 5 => "ICPMCL_Atlas"
  | 6 => "ICPMCR_Atlas"
  | 7 => "ICPVCL_Atlas"
  | 8 => "ICPVCR_Atlas"
  | 9 => "LLL_Atlas"
  | 10 => "LLR_Atlas"
  | 11 => "MCP_Atlas"
  | 12 => "MLL_Atlas"
  | 13 => "MLR_Atlas"
  | 14 => "POTPTL_Atlas"
  | 15 => "POTPTR_Atlas"
  | 16 => "SCPCRL_Atlas"
  | 17 => "SCPCRR_Atlas"
  | 18 => "SCPCTL_Atlas"
  | 19 => "SCPCTR_Atlas"
  | 20 => "SCPSCL_Atlas"
  | 21 => "SCPSCR_Atlas"
  | 22 => "STTL_Atlas"
  | 23 => "STTR_Atlas"
  | _ => ""

/-- `load_brainstem_labels`: ids `range(0, 24)` zipped with their dict names. -/
def load_brainstem_labels : List (Nat × String) :=
  (List.range 24).map fun i => (i, brainstemName i)

/-- Python dict built by inserting rows in order: a lookup returns the
value of the last row carrying the key. -/
def dictLast (rows : List (Nat × String)) (id : Nat) : String :=
  (((rows.reverse.find? fun r => r.1 == id).map Prod.snd).getD "")

/-- `load_tailrach_atlas_labels` on already-parsed CSV rows
(`Index`, `Description`): the id list is the Index column in row order,
names come from the dict keyed on Index. -/
def load_tailrach_atlas_labels (rows : List (Nat × String)) : List (Nat × String) :=
  rows.map fun r => (r.1, dictLast rows r.1)

/-- One parsed row of the Neudorfer CSV. -/
structure NeudorferRow where
  label : Nat
  hemisphere : String
  abbreviation : String
  name : String

/-- The composed display name `f"{Hemisphere}_{Abbreviation}_{Name}"`. -/
def neudorferName (r : NeudorferRow) : String :=
  r.hemisphere ++ "_" ++ r.abbreviation ++ "_" ++ r.name

/-- Dict lookup for the Neudorfer table, last row with the key wins. -/
def dictLastNeudorfer (rows : List NeudorferRow) (id : Nat) : String :=
  (((rows.reverse.find? fun r => r.label == id).map neudorferName).getD "")

/-- `load_neudorfer_atlas_labels` on already-parsed CSV rows. -/
def load_neudorfer_atlas_labels (rows : List NeudorferRow) : List (Nat × String) :=
  rows.map fun r => (r.label, dictLastNeudorfer rows r.label)

/-- `compute_stats_atlas`, after the external I/O: the two loaded volumes,
the voxel spacings from the lesion header, and the parsed contents of the
two catalog CSV files are inputs; the returned value is the list of rows
the function appends and writes, or the exception it raises. -/
def compute_stats_atlas (lesion atlasG : Grid) (voxel_dims : List ℚ)
    (tailrachRows : List (Nat × String)) (neudorferRows : List NeudorferRow)
    (atlas_type : String) : Except PyError (List RegionStat) :=
  let lesionD := convertGrid lesion
  let atlasD := convertGrid atlasG
  let voxvol := voxel_dims.prod
  if atlas_type = "neudorfer" then
    compute_core lesionD atlasD voxvol (load_neudorfer_atlas_labels neudorferRows)
  else if atlas_type = "tailrach" then
    compute_core lesionD atlasD voxvol (load_tailrach_atlas_labels tailrachRows)
  else if atlas_type = "brainstem" then
    compute_core lesionD atlasD voxvol load_brainstem_labels
  else .error .exceptionSomethingWentWrong

/-- ASCII whitespace stripped by Python `str.strip()`. -/
def isPySpace (c : Char) : Bool :=
  c == ' ' || c == '\t' || c == '\n' || c == '\r' || c == '\x0b' || c == '\x0c'

/-- Python `str.strip()` on a character list. -/
def pyStrip (cs : List Char) : List Char :=
  ((cs.dropWhile isPySpace).reverse.dropWhile isPySpace).reverse

/-- Python `str.replace(old, "")` for a non-empty `old`: scan left to
right, drop each non-overlapping occurrence.  Fuel is the list length;
each step consumes at least one character. -/
def removeAllAux (pat : List Char) : Nat → List Char → List Char
  | 0, s => s
  | _ + 1, [] => []
  | fuel + 1, c :: rest =>
    if pat.isPrefixOf (c :: rest) && !pat.isEmpty then
      removeAllAux pat fuel ((c :: rest).drop pat.length)
    else
      c :: removeAllAux pat fuel rest

/-- Python `str.replace(pat, "")`. -/
def removeAll (pat s : List Char) : List Char :=
  removeAllAux pat s.length s

/-- `clean_label`: the fully-wildcarded sentinel becomes `"Background"`;
otherwise drop `"*."`, then `".*"`, then `"*"`, and strip. -/
def clean_label (label_name : String) : String :=
  if pyStrip label_name.data = "*.*.*.*.".data then "Background"
  else String.mk (pyStrip (removeAll "*".data (removeAll ".*".data
    (removeAll "*.".data label_name.data))))

/-- Spec-side count: grid cells of the atlas volume holding `region_id`. -/
def specRegionCount (a : Grid) (region_id : Nat) : Nat :=
  ((cellIdx a.shape).filter fun c => a.data c.1 c.2.1 c.2.2 = region_id).card

/-- Spec-side count: grid cells where the lesion is nonzero and the atlas
volume holds `region_id`. -/
def specLesionCount (l a : Grid) (region_id : Nat) : Nat :=
  ((cellIdx a.shape).filter fun c =>
    l.data c.1 c.2.1 c.2.2 ≠ 0 ∧ a.data c.1 c.2.1 c.2.2 = region_id).card

/-- Spec-side count: lesion-positive cells whose atlas label appears in
the given id list. -/
def specCatalogLesionTotal (l a : Grid) (ids : List Nat) : Nat :=
  ((cellIdx a.shape).filter fun c =>
    l.data c.1 c.2.1 c.2.2 ≠ 0 ∧ a.data c.1 c.2.1 c.2.2 ∈ ids).card

/-- Broadcast compatibility of two shapes (what numpy accepts). -/
def bcCompatible (s t : Nat × Nat × Nat) : Prop :=
  (bcDim s.1 t.1).isSome ∧ (bcDim s.2.1 t.2.1).isSome ∧ (bcDim s.2.2 t.2.2).isSome

instance (s t : Nat × Nat × Nat) : Decidable (bcCompatible s t) := by
  unfold bcCompatible; infer_instance

/-- The record the spec's algorithm steps 1-8 prescribe for one catalog
entry, phrased with the spec-side counts. -/
def specRecord (l a : Grid) (v : ℚ) (e : Nat × String) : RegionStat where
  atlas_label := e.2
  n_label_voxels := specRegionCount a e.1
  label_volume := (specRegionCount a e.1 : ℚ) * v
  n_lesion_voxels := specLesionCount l a e.1
  lesion_volume := (specLesionCount l a e.1 : ℚ) * v
  lesion_percent := 100 *
    (if (specRegionCount a e.1 : ℚ) * v > 0 then
      ((specLesionCount l a e.1 : ℚ) * v) / ((specRegionCount a e.1 : ℚ) * v)
    else 0)

theorem bcDim_self (a : Nat) : bcDim a a = some a := by
  simp [bcDim]

theorem bIdx_eq {d i : Nat} (h : i < d) : bIdx d i = i := by
  unfold bIdx
  split
  · omega
  · rfl

theorem mem_cellIdx {s c : Nat × Nat × Nat} :
    c ∈ cellIdx s ↔ c.1 < s.1 ∧ c.2.1 < s.2.1 ∧ c.2.2 < s.2.2 := by
  simp [cellIdx, Finset.mem_product, Finset.mem_range]

theorem card_cellIdx (s : Nat × Nat × Nat) :
    (cellIdx s).card = s.1 * (s.2.1 * s.2.2) := by
  simp [cellIdx, Finset.card_product, Finset.card_range]

theorem countNonzero_regionMask (a : Grid) (rid : Nat) :
    countNonzero (regionMask a rid) = specRegionCount a rid := by
  unfold countNonzero regionMask specRegionCount
  congr 1
  apply Finset.filter_congr
  intro c _
  by_cases h : a.data c.1 c.2.1 c.2.2 = rid <;> simp [h]

theorem regionRecord_of_shape_eq (l a : Grid) (v : ℚ) (e : Nat × String)
    (hs : l.shape = a.shape) :
    regionRecord l a v e = .ok (specRecord l a v e) := by
  obtain ⟨⟨s1, s2, s3⟩, ld⟩ := l
  obtain ⟨⟨t1, t2, t3⟩, ad⟩ := a
  obtain ⟨rfl, rfl, rfl⟩ : s1 = t1 ∧ s2 = t2 ∧ s3 = t3 := by
    simpa [Prod.ext_iff] using hs
  have hmul : gridMul ⟨(s1, s2, s3), ld⟩ (regionMask ⟨(s1, s2, s3), ad⟩ e.1) =
      some ⟨(s1, s2, s3), fun i j k =>
        ld (bIdx s1 i) (bIdx s2 j) (bIdx s3 k) *
          (if ad (bIdx s1 i) (bIdx s2 j) (bIdx s3 k) = e.1 then 1 else 0)⟩ := by
    simp [gridMul, regionMask, bcDim]
  have hinter : countNonzero ⟨(s1, s2, s3), fun i j k =>
      ld (bIdx s1 i) (bIdx s2 j) (bIdx s3 k) *
        (if ad (bIdx s1 i) (bIdx s2 j) (bIdx s3 k) = e.1 then 1 else 0)⟩ =
      specLesionCount ⟨(s1, s2, s3), ld⟩ ⟨(s1, s2, s3), ad⟩ e.1 := by
    unfold countNonzero specLesionCount
    congr 1
    apply Finset.filter_congr
    intro c hc
    obtain ⟨h1, h2, h3⟩ : c.1 < s1 ∧ c.2.1 < s2 ∧ c.2.2 < s3 := by
      simpa using mem_cellIdx.mp hc
    by_cases hl : ld c.1 c.2.1 c.2.2 = 0 <;>
      by_cases ha : ad c.1 c.2.1 c.2.2 = e.1 <;>
        simp [bIdx_eq h1, bIdx_eq h2, bIdx_eq h3, hl, ha]
  simp only [regionRecord, hmul, hinter,
    countNonzero_regionMask ⟨(s1, s2, s3), ad⟩ e.1]
  rfl

theorem compute_core_of_shape_eq (l a : Grid) (v : ℚ) (cat : List (Nat × String))
    (hs : l.shape = a.shape) :
    compute_core l a v cat = .ok (cat.map (specRecord l a v)) := by
  induction cat with
  | nil => rfl
  | cons e rest ih =>
    simp only [compute_core, regionRecord_of_shape_eq l a v e hs, ih, List.map_cons]

theorem specLesionCount_le_specRegionCount (l a : Grid) (rid : Nat) :
    specLesionCount l a rid ≤ specRegionCount a rid := by
  unfold specLesionCount specRegionCount
  apply Finset.card_le_card
  intro c hc
  simp only [Finset.mem_filter] at hc ⊢
  exact ⟨hc.1, hc.2.2⟩

theorem convertGrid_shape (g : Grid) : (convertGrid g).shape = g.shape := rfl

theorem compute_stats_atlas_brainstem (l a : Grid) (dims : List ℚ)
    (tb : List (Nat × String)) (nb : List NeudorferRow) :
    compute_stats_atlas l a dims tb nb "brainstem" =
      compute_core (convertGrid l) (convertGrid a) dims.prod load_brainstem_labels := by
  with_unfolding_all rfl

theorem compute_stats_atlas_tailrach (l a : Grid) (dims : List ℚ)
    (tb : List (Nat × String)) (nb : List NeudorferRow) :
    compute_stats_atlas l a dims tb nb "tailrach" =
      compute_core (convertGrid l) (convertGrid a) dims.prod
        (load_tailrach_atlas_labels tb) := by
  with_unfolding_all rfl

theorem compute_stats_atlas_neudorfer (l a : Grid) (dims : List ℚ)
    (tb : List (Nat × String)) (nb : List NeudorferRow) :
    compute_stats_atlas l a dims tb nb "neudorfer" =
      compute_core (convertGrid l) (convertGrid a) dims.prod
        (load_neudorfer_atlas_labels nb) := by
  with_unfolding_all rfl

theorem gridMul_of_compatible (g h : Grid) (hc : bcCompatible g.shape h.shape) :
    ∃ p, gridMul g h = some p := by
  obtain ⟨h1, h2, h3⟩ := hc
  obtain ⟨a, ha⟩ := Option.isSome_iff_exists.mp h1
  obtain ⟨b, hb⟩ := Option.isSome_iff_exists.mp h2
  obtain ⟨c, hcc⟩ := Option.isSome_iff_exists.mp h3
  simp only [gridMul, ha, hb, hcc]
  exact ⟨_, rfl⟩

theorem gridMul_of_not_compatible (g h : Grid) (hc : ¬ bcCompatible g.shape h.shape) :
    gridMul g h = none := by
  unfold gridMul
  unfold bcCompatible at hc
  rcases ha : bcDim g.shape.1 h.shape.1 with _ | a
  · rfl
  rcases hb : bcDim g.shape.2.1 h.shape.2.1 with _ | b
  · rfl
  rcases hcc : bcDim g.shape.2.2 h.shape.2.2 with _ | c
  · rfl
  exact absurd ⟨by rw [ha]; rfl, by rw [hb]; rfl, by rw [hcc]; rfl⟩ hc

theorem regionRecord_of_compatible (l a : Grid) (v : ℚ) (e : Nat × String)
    (hc : bcCompatible l.shape a.shape) :
    ∃ r, regionRecord l a v e = .ok r := by
  obtain ⟨p, hp⟩ := gridMul_of_compatible l (regionMask a e.1) hc
  simp only [regionRecord, hp]
  exact ⟨_, rfl⟩

theorem regionRecord_of_not_compatible (l a : Grid) (v : ℚ) (e : Nat × String)
    (hc : ¬ bcCompatible l.shape a.shape) :
    regionRecord l a v e = .error .valueErrorBroadcast := by
  have hp := gridMul_of_not_compatible l (regionMask a e.1) hc
  simp only [regionRecord, hp]

theorem compute_core_of_compatible (l a : Grid) (v : ℚ) (cat : List (Nat × String))
    (hc : bcCompatible l.shape a.shape) :
    ∃ rs, compute_core l a v cat = .ok rs ∧ rs.length = cat.length := by
  induction cat with
  | nil => exact ⟨[], rfl, rfl⟩
  | cons e rest ih =>
    obtain ⟨r, hr⟩ := regionRecord_of_compatible l a v e hc
    obtain ⟨rs, hrs, hlen⟩ := ih
    refine ⟨r :: rs, ?_, by simp [hlen]⟩
    simp only [compute_core, hr, hrs]

theorem compute_core_error_eq (l a : Grid) (v : ℚ) (cat : List (Nat × String))
    (err : PyError) (h : compute_core l a v cat = .error err) :
    err = .valueErrorBroadcast := by
  induction cat with
  | nil => simp [compute_core] at h
  | cons e rest ih =>
    simp only [compute_core] at h
    rcases hr : regionRecord l a v e with err1 | r
    · have herr1 : err1 = PyError.valueErrorBroadcast := by
        rcases hm : gridMul l (regionMask a e.1) with _ | p
        · simp only [regionRecord, hm, Except.error.injEq] at hr
          exact hr.symm
        · simp only [regionRecord, hm] at hr
          exact Except.noConfusion hr
      rw [hr] at h
      simp only [Except.error.injEq] at h
      exact h ▸ herr1
    · rw [hr] at h
      rcases hrest : compute_core l a v rest with err2 | rs
      · rw [hrest] at h
        simp only [Except.error.injEq] at h
        exact ih (by rw [hrest, h])
      · rw [hrest] at h
        simp at h

theorem sum_specLesionCount (l a : Grid) (ids : List Nat) (hu : ids.Nodup) :
    (ids.map (specLesionCount l a)).sum = specCatalogLesionTotal l a ids := by
  induction ids with
  | nil => simp [specCatalogLesionTotal]
  | cons i rest ih =>
    have hnotin : i ∉ rest := (List.nodup_cons.mp hu).1
    have hrest := ih (List.nodup_cons.mp hu).2
    simp only [List.map_cons, List.sum_cons, hrest]
    unfold specCatalogLesionTotal specLesionCount
    have hsplit : ((cellIdx a.shape).filter fun c =>
        l.data c.1 c.2.1 c.2.2 ≠ 0 ∧ a.data c.1 c.2.1 c.2.2 ∈ i :: rest) =
        ((cellIdx a.shape).filter fun c =>
          l.data c.1 c.2.1 c.2.2 ≠ 0 ∧ a.data c.1 c.2.1 c.2.2 = i) ∪
        ((cellIdx a.shape).filter fun c =>
          l.data c.1 c.2.1 c.2.2 ≠ 0 ∧ a.data c.1 c.2.1 c.2.2 ∈ rest) := by
      rw [← Finset.filter_or]
      apply Finset.filter_congr
      intro c _
      simp [List.mem_cons, and_or_left]
    rw [hsplit, Finset.card_union_of_disjoint]
    rw [Finset.disjoint_left]
    intro c hc1 hc2
    rw [Finset.mem_filter] at hc1 hc2
    exact hnotin (hc1.2.2 ▸ hc2.2.2)

def wLesion : Grid := ⟨(1, 1, 1), fun _ _ _ => 1⟩

def wAtlas : Grid := ⟨(1, 1, 1), fun _ _ _ => 5⟩

/-- C1: for every catalog entry, the emitted record's region voxel count is
the number of grid cells holding the entry's region id, the lesion voxel
count is the number of grid cells where the lesion is nonzero and the atlas
holds the region id, and both volumes are the corresponding count times the
scalar voxel volume. -/
theorem claim_c1_counts_and_volumes (l a : Grid) (v : ℚ)
    (cat : List (Nat × String)) (hs : l.shape = a.shape) :
    ∃ rs, compute_core l a v cat = .ok rs ∧
      List.Forall₂ (fun (e : Nat × String) (r : RegionStat) =>
        r.n_label_voxels = specRegionCount a e.1 ∧
        r.n_lesion_voxels = specLesionCount l a e.1 ∧
        r.label_volume = (specRegionCount a e.1 : ℚ) * v ∧
        r.lesion_volume = (specLesionCount l a e.1 : ℚ) * v) cat rs := by
  refine ⟨_, compute_core_of_shape_eq l a v cat hs, ?_⟩
  rw [List.forall₂_map_right_iff, List.forall₂_same]
  intro e _
  exact ⟨rfl, rfl, rfl, rfl⟩

/-- Witness for C1 at a concrete 1×1×1 input. -/
theorem claim_c1_counts_and_volumes_witness :
    wLesion.shape = wAtlas.shape ∧
    (∃ rs, compute_core wLesion wAtlas 1 [(5, "Region")] = .ok rs ∧
      List.Forall₂ (fun (e : Nat × String) (r : RegionStat) =>
        r.n_label_voxels = specRegionCount wAtlas e.1 ∧
        r.n_lesion_voxels = specLesionCount wLesion wAtlas e.1 ∧
        r.label_volume = (specRegionCount wAtlas e.1 : ℚ) * 1 ∧
        r.lesion_volume = (specLesionCount wLesion wAtlas e.1 : ℚ) * 1)
        [(5, "Region")] rs) :=
  ⟨rfl, claim_c1_counts_and_volumes wLesion wAtlas 1 [(5, "Region")] rfl⟩

/-- C2: the percentage field is `100 * lesion_volume / region_volume` when
the region volume is positive, exactly `0` when the region volume is zero,
and lies in `[0, 100]` whenever the region volume is positive. -/
theorem claim_c2_percentage (l a : Grid) (v : ℚ)
    (cat : List (Nat × String)) (hs : l.shape = a.shape) :
    ∃ rs, compute_core l a v cat = .ok rs ∧ ∀ r ∈ rs,
      (r.label_volume = 0 → r.lesion_percent = 0) ∧
      (0 < r.label_volume →
        r.lesion_percent = 100 * r.lesion_volume / r.label_volume ∧
        0 ≤ r.lesion_percent ∧ r.lesion_percent ≤ 100) := by
  refine ⟨_, compute_core_of_shape_eq l a v cat hs, ?_⟩
  intro r hr
  rw [List.mem_map] at hr
  obtain ⟨e, _, rfl⟩ := hr
  have hmn : specLesionCount l a e.1 ≤ specRegionCount a e.1 :=
    specLesionCount_le_specRegionCount l a e.1
  simp only [specRecord]
  constructor
  · intro h0
    simp [h0]
  · intro hpos
    have hv : 0 < v := by
      by_contra hv
      push_neg at hv
      have hn0 : (0 : ℚ) ≤ (specRegionCount a e.1 : ℚ) := Nat.cast_nonneg _
      nlinarith
    have hnpos : 0 < (specRegionCount a e.1 : ℚ) := by
      by_contra hn
      push_neg at hn
      nlinarith
    refine ⟨?_, ?_, ?_⟩
    · rw [if_pos hpos, ← mul_div_assoc]
    · rw [if_pos hpos]
      positivity
    · rw [if_pos hpos]
      have heq : ((specLesionCount l a e.1 : ℚ) * v) / ((specRegionCount a e.1 : ℚ) * v) =
          (specLesionCount l a e.1 : ℚ) / (specRegionCount a e.1 : ℚ) :=
        mul_div_mul_right _ _ (ne_of_gt hv)
      rw [heq]
      have hle1 : (specLesionCount l a e.1 : ℚ) / (specRegionCount a e.1 : ℚ) ≤ 1 := by
        rw [div_le_one hnpos]
        exact_mod_cast hmn
      linarith

/-- Witness for C2 at a concrete 1×1×1 input. -/
theorem claim_c2_percentage_witness :
    wLesion.shape = wAtlas.shape ∧
    (∃ rs, compute_core wLesion wAtlas 1 [(5, "Region")] = .ok rs ∧ ∀ r ∈ rs,
      (r.label_volume = 0 → r.lesion_percent = 0) ∧
      (0 < r.label_volume →
        r.lesion_percent = 100 * r.lesion_volume / r.label_volume ∧
        0 ≤ r.lesion_percent ∧ r.lesion_percent ≤ 100)) :=
  ⟨rfl, claim_c2_percentage wLesion wAtlas 1 [(5, "Region")] rfl⟩

/-- C3: with unique catalog ids, the lesion voxel counts summed over all
records equal the number of lesion-positive cells whose atlas label appears
in the catalog. -/
theorem claim_c3_lesion_sum (l a : Grid) (v : ℚ)
    (cat : List (Nat × String)) (hs : l.shape = a.shape)
    (hu : (cat.map Prod.fst).Nodup) :
    ∃ rs, compute_core l a v cat = .ok rs ∧
      (rs.map RegionStat.n_lesion_voxels).sum =
        specCatalogLesionTotal l a (cat.map Prod.fst) := by
  refine ⟨_, compute_core_of_shape_eq l a v cat hs, ?_⟩
  rw [List.map_map, ← sum_specLesionCount l a (cat.map Prod.fst) hu, List.map_map]
  rfl

/-- Witness for C3 at a concrete 1×1×1 input with a two-entry catalog. -/
theorem claim_c3_lesion_sum_witness :
    wLesion.shape = wAtlas.shape ∧
    (([(5, "Region"), (0, "Background")].map Prod.fst).Nodup) ∧
    (∃ rs, compute_core wLesion wAtlas 1 [(5, "Region"), (0, "Background")] = .ok rs ∧
      (rs.map RegionStat.n_lesion_voxels).sum =
        specCatalogLesionTotal wLesion wAtlas
          ([(5, "Region"), (0, "Background")].map Prod.fst)) :=
  ⟨rfl, by decide,
    claim_c3_lesion_sum wLesion wAtlas 1 [(5, "Region"), (0, "Background")] rfl (by decide)⟩

/-- C4: one record per catalog entry, in catalog iteration order. -/
theorem claim_c4_record_per_entry (l a : Grid) (v : ℚ)
    (cat : List (Nat × String)) (hs : l.shape = a.shape) :
    ∃ rs, compute_core l a v cat = .ok rs ∧ rs.length = cat.length ∧
      rs.map RegionStat.atlas_label = cat.map Prod.snd := by
  refine ⟨_, compute_core_of_shape_eq l a v cat hs, by simp, ?_⟩
  rw [List.map_map]
  rfl

/-- Witness for C4 at a concrete 1×1×1 input. -/
theorem claim_c4_record_per_entry_witness :
    wLesion.shape = wAtlas.shape ∧
    (∃ rs, compute_core wLesion wAtlas 1 [(0, "Background"), (7, "Empty")] = .ok rs ∧
      rs.length = [(0, "Background"), (7, "Empty")].length ∧
      rs.map RegionStat.atlas_label =
        [(0, "Background"), (7, "Empty")].map Prod.snd) :=
  ⟨rfl, claim_c4_record_per_entry wLesion wAtlas 1 [(0, "Background"), (7, "Empty")] rfl⟩

def cexLesionBig : Grid := ⟨(2, 1, 1), fun _ _ _ => 1⟩

def cexLesion3 : Grid := ⟨(3, 1, 1), fun _ _ _ => 1⟩

def cexAtlas2 : Grid := ⟨(2, 1, 1), fun _ _ _ => 5⟩

/-- C5 counterexample: the lesion and atlas grids differ in shape, yet the
computation raises nothing and returns one full record (broadcasting even
double-counts the lesion, yielding 200 percent).  No `ShapeMismatch`
check exists in the code. -/
theorem claim_c5_counterexample :
    cexLesionBig.shape ≠ wAtlas.shape ∧
    (compute_core cexLesionBig wAtlas 1 [(5, "Region")]).toOption =
      some [⟨"Region", 1, 1, 2, 2, 200⟩] :=
  ⟨by decide, by with_unfolding_all rfl⟩

/-- C5 (amended): the computation performs no shape check.  If the two
shapes are numpy-broadcast-compatible it silently succeeds with one record
per catalog entry computed over the broadcast grid; if they are
incompatible and the catalog is nonempty, it aborts during the first
region's elementwise multiplication with a generic `ValueError`, emitting
zero records. -/
theorem claim_c5_amended (l a : Grid) (v : ℚ) (cat : List (Nat × String)) :
    (bcCompatible l.shape a.shape →
      ∃ rs, compute_core l a v cat = .ok rs ∧ rs.length = cat.length) ∧
    (¬ bcCompatible l.shape a.shape → cat ≠ [] →
      compute_core l a v cat = .error .valueErrorBroadcast) := by
  constructor
  · intro hc
    exact compute_core_of_compatible l a v cat hc
  · intro hc hne
    cases cat with
    | nil => exact absurd rfl hne
    | cons e rest =>
      simp only [compute_core, regionRecord_of_not_compatible l a v e hc]

/-- Witness for the amended C5: incompatible shapes with a nonempty
catalog produce the broadcast error and zero records. -/
theorem claim_c5_amended_witness :
    ¬ bcCompatible cexLesion3.shape cexAtlas2.shape ∧
    ([(5, "Region")] : List (Nat × String)) ≠ [] ∧
    compute_core cexLesion3 cexAtlas2 1 [(5, "Region")] = .error .valueErrorBroadcast :=
  ⟨by decide, by decide,
    (claim_c5_amended cexLesion3 cexAtlas2 1 [(5, "Region")]).2 (by decide) (by decide)⟩

/-- C6: the computation raises the unknown-atlas-type exception exactly
when the selector is none of the three recognized strings; for recognized
selectors that error is never produced, and when it is produced no record
is emitted (the whole result is the error). -/
theorem claim_c6_selector (l a : Grid) (dims : List ℚ)
    (tb : List (Nat × String)) (nb : List NeudorferRow) (sel : String) :
    compute_stats_atlas l a dims tb nb sel = .error .exceptionSomethingWentWrong ↔
      sel ≠ "neudorfer" ∧ sel ≠ "tailrach" ∧ sel ≠ "brainstem" := by
  constructor
  · intro h
    refine ⟨?_, ?_, ?_⟩ <;> rintro rfl
    · rw [compute_stats_atlas_neudorfer] at h
      exact PyError.noConfusion (compute_core_error_eq _ _ _ _ _ h)
    · rw [compute_stats_atlas_tailrach] at h
      exact PyError.noConfusion (compute_core_error_eq _ _ _ _ _ h)
    · rw [compute_stats_atlas_brainstem] at h
      exact PyError.noConfusion (compute_core_error_eq _ _ _ _ _ h)
  · rintro ⟨h1, h2, h3⟩
    simp only [compute_stats_atlas, if_neg h1, if_neg h2, if_neg h3]

/-- Witness for C6: an unrecognized selector string fails with the
dispatch exception. -/
theorem claim_c6_selector_witness :
    compute_stats_atlas wLesion wAtlas [1] [] [] "smatt" =
      .error .exceptionSomethingWentWrong :=
  (claim_c6_selector wLesion wAtlas [1] [] [] "smatt").mpr
    ⟨by decide, by decide, by decide⟩

/-- C7 counterexample: a voxel spacing with a component equal to 0 (hence
not all positive) is accepted without any `InvalidGeometry` failure: the
computation completes and returns records. -/
theorem claim_c7_counterexample :
    ((0 : ℚ) ≤ 0) ∧
    (compute_stats_atlas wLesion wAtlas [0, 1, 1] [] [] "brainstem").isOk = true :=
  ⟨le_refl 0, by with_unfolding_all rfl⟩

/-- C7 (amended): the code constructs no validated geometry object; the
voxel volume is the product of however many spacing components the header
supplies, of any sign, and is the factor converting both voxel counts to
volumes.  Non-positive or non-3-component spacings are accepted silently. -/
theorem claim_c7_amended (l a : Grid) (dims : List ℚ)
    (tb : List (Nat × String)) (nb : List NeudorferRow)
    (hs : l.shape = a.shape) :
    ∃ rs, compute_stats_atlas l a dims tb nb "brainstem" = .ok rs ∧
      ∀ r ∈ rs, r.label_volume = (r.n_label_voxels : ℚ) * dims.prod ∧
        r.lesion_volume = (r.n_lesion_voxels : ℚ) * dims.prod := by
  rw [compute_stats_atlas_brainstem]
  have hs' : (convertGrid l).shape = (convertGrid a).shape := hs
  refine ⟨_, compute_core_of_shape_eq _ _ _ _ hs', ?_⟩
  intro r hr
  rw [List.mem_map] at hr
  obtain ⟨e, _, rfl⟩ := hr
  exact ⟨rfl, rfl⟩

/-- Witness for the amended C7: a two-component spacing with a negative
entry still yields records whose volumes are count times the product. -/
theorem claim_c7_amended_witness :
    wLesion.shape = wAtlas.shape ∧
    (∃ rs, compute_stats_atlas wLesion wAtlas [-1, 2] [] [] "brainstem" = .ok rs ∧
      ∀ r ∈ rs, r.label_volume = (r.n_label_voxels : ℚ) * ([-1, 2] : List ℚ).prod ∧
        r.lesion_volume = (r.n_lesion_voxels : ℚ) * ([-1, 2] : List ℚ).prod) :=
  ⟨rfl, claim_c7_amended wLesion wAtlas [-1, 2] [] [] rfl⟩

/-- C8: the name normalizer sends the fully-wildcarded sentinel (also when
surrounded by whitespace) to "Background", and on the spec's examples
removes the prefix-wildcard, suffix-wildcard and bare-asterisk tokens and
trims the result. -/
theorem claim_c8_clean_label :
    clean_label "*.*.*.*." = "Background" ∧
    clean_label "  *.*.*.*.  " = "Background" ∧
    clean_label " CSTL.*" = "CSTL" ∧
    clean_label "*.FPTR" = "FPTR" :=
  ⟨by decide, by decide, by decide, by decide⟩

def wAtlas5b : Grid := ⟨(2, 1, 1), fun _ _ _ => 5⟩

def c10Atlas : Grid := ⟨(1, 1, 1), fun _ _ _ => 256⟩

/-- C9: the brainstem catalog is the ids 0..23 bound to the built-in code
strings; on an atlas volume holding 5 everywhere, the record for id 5
("ICPMCL_Atlas") counts every grid cell and every other record counts 0. -/
theorem claim_c9_brainstem (l a : Grid) (dims : List ℚ)
    (tb : List (Nat × String)) (nb : List NeudorferRow)
    (hs : l.shape = a.shape)
    (h5 : ∀ i < a.shape.1, ∀ j < a.shape.2.1, ∀ k < a.shape.2.2, a.data i j k = 5) :
    load_brainstem_labels.map Prod.fst = List.range 24 ∧
    brainstemName 5 = "ICPMCL_Atlas" ∧
    ∃ rs, compute_stats_atlas l a dims tb nb "brainstem" = .ok rs ∧
      rs.map RegionStat.atlas_label = (List.range 24).map brainstemName ∧
      rs.map RegionStat.n_label_voxels =
        (List.range 24).map fun i =>
          if i = 5 then a.shape.1 * (a.shape.2.1 * a.shape.2.2) else 0 := by
  have hcnt : ∀ i : Nat, specRegionCount (convertGrid a) i =
      if i = 5 then a.shape.1 * (a.shape.2.1 * a.shape.2.2) else 0 := by
    intro i
    simp only [specRegionCount, convertGrid]
    by_cases h : i = 5
    · subst h
      rw [if_pos rfl]
      have hfull : ((cellIdx a.shape).filter fun c =>
          a.data c.1 c.2.1 c.2.2 % 256 = 5) = cellIdx a.shape := by
        apply Finset.filter_true_of_mem
        intro c hc
        obtain ⟨h1, h2, h3⟩ := mem_cellIdx.mp hc
        rw [h5 c.1 h1 c.2.1 h2 c.2.2 h3]
      rw [hfull, card_cellIdx]
    · rw [if_neg h]
      have hempty : ((cellIdx a.shape).filter fun c =>
          a.data c.1 c.2.1 c.2.2 % 256 = i) = ∅ := by
        apply Finset.filter_false_of_mem
        intro c hc
        obtain ⟨h1, h2, h3⟩ := mem_cellIdx.mp hc
        rw [h5 c.1 h1 c.2.1 h2 c.2.2 h3]
        omega
      rw [hempty, Finset.card_empty]
  refine ⟨by decide, rfl, ?_⟩
  rw [compute_stats_atlas_brainstem]
  have hs' : (convertGrid l).shape = (convertGrid a).shape := hs
  refine ⟨_, compute_core_of_shape_eq _ _ _ _ hs', ?_, ?_⟩
  · rw [List.map_map, load_brainstem_labels, List.map_map]
    apply List.map_congr_left
    intro i _
    rfl
  · rw [List.map_map, load_brainstem_labels, List.map_map]
    apply List.map_congr_left
    intro i _
    exact hcnt i

/-- Witness for C9: a 2×1×1 atlas holding 5 everywhere. -/
theorem claim_c9_brainstem_witness :
    cexLesionBig.shape = wAtlas5b.shape ∧
    (∀ i < wAtlas5b.shape.1, ∀ j < wAtlas5b.shape.2.1, ∀ k < wAtlas5b.shape.2.2,
      wAtlas5b.data i j k = 5) ∧
    (load_brainstem_labels.map Prod.fst = List.range 24 ∧
     brainstemName 5 = "ICPMCL_Atlas" ∧
     ∃ rs, compute_stats_atlas cexLesionBig wAtlas5b [1] [] [] "brainstem" = .ok rs ∧
       rs.map RegionStat.atlas_label = (List.range 24).map brainstemName ∧
       rs.map RegionStat.n_label_voxels =
         (List.range 24).map fun i =>
           if i = 5 then wAtlas5b.shape.1 * (wAtlas5b.shape.2.1 * wAtlas5b.shape.2.2)
           else 0) :=
  ⟨rfl, by decide, claim_c9_brainstem cexLesionBig wAtlas5b [1] [] [] rfl (by decide)⟩

/-- C10 counterexample: the single grid cell stores the raw atlas value
256, which is congruent to the catalog region id 256 modulo 256, so the
claim requires the record for id 256 to count that cell; the code's
`uint8` cast makes the comparison `0 == 256`, which never holds, and the
record counts nothing. -/
theorem claim_c10_counterexample :
    (((cellIdx c10Atlas.shape).filter fun c =>
        c10Atlas.data c.1 c.2.1 c.2.2 % 256 = 256 % 256).card = 1) ∧
    (compute_stats_atlas wLesion c10Atlas [1] [(256, "Region256")] [] "tailrach").toOption =
      some [⟨"Region256", 0, 0, 0, 0, 0⟩] :=
  ⟨by decide, by with_unfolding_all rfl⟩

/-- C10 (amended): both grids are reduced modulo 256 by the `uint8` cast,
and a catalog region id `r` matches exactly the cells whose reduced stored
value equals `r` itself — so ids of 256 or more match no cell at all, and
a lesion value that is a nonzero multiple of 256 counts as no lesion. -/
theorem claim_c10_amended (l a : Grid) (dims : List ℚ) (rows : List (Nat × String))
    (hs : l.shape = a.shape) :
    ∃ rs, compute_stats_atlas l a dims rows [] "tailrach" = .ok rs ∧
      List.Forall₂ (fun (row : Nat × String) (r : RegionStat) =>
        r.n_label_voxels = ((cellIdx a.shape).filter fun c =>
          a.data c.1 c.2.1 c.2.2 % 256 = row.1).card ∧
        r.n_lesion_voxels = ((cellIdx a.shape).filter fun c =>
          l.data c.1 c.2.1 c.2.2 % 256 ≠ 0 ∧ a.data c.1 c.2.1 c.2.2 % 256 = row.1).card)
        rows rs := by
  rw [compute_stats_atlas_tailrach]
  have hs' : (convertGrid l).shape = (convertGrid a).shape := hs
  refine ⟨_, compute_core_of_shape_eq _ _ _ _ hs', ?_⟩
  unfold load_tailrach_atlas_labels
  rw [List.map_map, List.forall₂_map_right_iff, List.forall₂_same]
  intro row _
  exact ⟨rfl, rfl⟩

/-- Witness for the amended C10. -/
theorem claim_c10_amended_witness :
    wLesion.shape = wAtlas.shape ∧
    (∃ rs, compute_stats_atlas wLesion wAtlas [1] [(5, "Region")] [] "tailrach" = .ok rs ∧
      List.Forall₂ (fun (row : Nat × String) (r : RegionStat) =>
        r.n_label_voxels = ((cellIdx wAtlas.shape).filter fun c =>
          wAtlas.data c.1 c.2.1 c.2.2 % 256 = row.1).card ∧
        r.n_lesion_voxels = ((cellIdx wAtlas.shape).filter fun c =>
          wLesion.data c.1 c.2.1 c.2.2 % 256 ≠ 0 ∧
            wAtlas.data c.1 c.2.1 c.2.2 % 256 = row.1).card)
        [(5, "Region")] rs) :=
  ⟨rfl, claim_c10_amended wLesion wAtlas [1] [(5, "Region")] rfl⟩
